import Mathlib

/-!
Verification development for the yoga pose-progression program
(`src/main.py`).  The pose-accuracy scoring engine, the landmark geometry
toolkit, the accuracy-smoothing buffer and the hold-timer level-progression
state machine are embedded shallowly below, translated directly from the
Python source.  Machine floats are idealised as exact rationals / reals;
Python `int(...)` truncation toward zero is modelled explicitly; Python
exceptions (`IndexError` from a too-negative list index) are modelled with
`Option`, `none` standing for a raised exception.
-/

namespace Yoga

/-- Accuracy threshold constant (`ACCURACY_THRESHOLD = 55.0`, main.py line 16). -/
def ACCURACY_THRESHOLD : ℚ := 55

/-- Sensitivity multiplier (`SENSITIVITY = 1.08`, main.py line 17). -/
def SENSITIVITY : ℚ := 27 / 25

/-- Smoothing window size (`SMOOTHING_WINDOW = 4`, main.py line 18). -/
def SMOOTHING_WINDOW : ℕ := 4

/-- One pose landmark: normalized x and y coordinates as produced by the
external pose detector.  Floats are idealised as rationals. -/
structure Landmark where
  x : ℚ
  y : ℚ
deriving DecidableEq

/-- Python `int(q)` on a rational: truncation toward zero. -/
def pyInt (q : ℚ) : ℤ :=
  if 0 ≤ q then ⌊q⌋ else ⌈q⌉

/-- Python `int(x)` on a real: truncation toward zero. -/
noncomputable def pyIntR (x : ℝ) : ℤ :=
  if 0 ≤ x then ⌊x⌋ else ⌈x⌉

/-- Python list indexing `l[p]` with an `Int` index: nonnegative indices
count from the front, negative indices count from the back, and an index
below `-l.length` raises `IndexError` (modelled as `none`). -/
def pyIndex {α : Type} (l : List α) (p : ℤ) : Option α :=
  if 0 ≤ p then l.get? p.toNat
  else if p + l.length < 0 then none
  else l.get? (p + l.length).toNat

/-- `find_point(landmarks, p)` (main.py lines 284-288): if `p < len(landmarks)`
it indexes the list (Python indexing, so negative `p` counts from the back and
`p < -len` raises, modelled as `none`) and scales the normalized coordinates
by the frame width and height with `int(...)` truncation; otherwise it
returns `(0, 0)`. -/
def find_point (width height : ℤ) (lms : List Landmark) (p : ℤ) : Option (ℤ × ℤ) :=
  if p < (lms.length : ℤ) then
    (pyIndex lms p).map fun lm => (pyInt (lm.x * width), pyInt (lm.y * height))
  else
    some (0, 0)

/-- `find_point` at a nonnegative (literal) index, as used inside
`check_pose_accuracy`: never raises, so the `Option` is discharged. -/
def fp (width height : ℤ) (lms : List Landmark) (p : ℕ) : ℤ × ℤ :=
  (find_point width height lms p).getD (0, 0)

/-- `euclidian(point1, point2)` (main.py lines 290-291). -/
noncomputable def euclidian (p1 p2 : ℝ × ℝ) : ℝ :=
  Real.sqrt ((p1.1 - p2.1) ^ 2 + (p1.2 - p2.2) ^ 2)

/-- Integer pixel point viewed in the real plane. -/
noncomputable def toRZ (p : ℤ × ℤ) : ℝ × ℝ :=
  ((p.1 : ℝ), (p.2 : ℝ))

/-- Rational point (a float midpoint in the source) viewed in the real plane. -/
noncomputable def toRQ (p : ℚ × ℚ) : ℝ × ℝ :=
  ((p.1 : ℝ), (p.2 : ℝ))

/-- Integer pixel point viewed as a complex number, used to state what
`angle_calc` computes in terms of the Euclidean interior angle. -/
noncomputable def toC (p : ℤ × ℤ) : ℂ :=
  Complex.mk (p.1 : ℝ) (p.2 : ℝ)

/-- `angle_calc(p0, p1, p2)` (main.py lines 293-301): law-of-cosines angle at
the vertex `p1`, in degrees, truncated to an integer by `int(...)`.  When
`a = 0` or `b = 0` the Python division raises `ZeroDivisionError`, the bare
`except` catches it and `0` is returned; this is the `if` branch below.  (For
`a ≠ 0 ≠ b` the `acos` argument is within `[-1, 1]` by Cauchy-Schwarz, so no
domain error can occur.) -/
noncomputable def angle_calc (p0 p1 p2 : ℤ × ℤ) : ℤ :=
  let a : ℤ := (p1.1 - p0.1) ^ 2 + (p1.2 - p0.2) ^ 2
  let b : ℤ := (p1.1 - p2.1) ^ 2 + (p1.2 - p2.2) ^ 2
  let c : ℤ := (p2.1 - p0.1) ^ 2 + (p2.2 - p0.2) ^ 2
  if a = 0 ∨ b = 0 then 0
  else pyIntR (Real.arccos (((a + b - c : ℤ) : ℝ) / Real.sqrt ((4 * a * b : ℤ) : ℝ)) * 180 / Real.pi)

/-- Shoulder midpoint `mid_sh` (main.py line 114), a float pair. -/
def mid_sh (w h : ℤ) (lms : List Landmark) : ℚ × ℚ :=
  let left_shoulder := fp w h lms 11
  let right_shoulder := fp w h lms 12
  (((left_shoulder.1 + right_shoulder.1 : ℤ) : ℚ) / 2,
   ((left_shoulder.2 + right_shoulder.2 : ℤ) : ℚ) / 2)

/-- Hip midpoint `mid_hip` (main.py line 115), a float pair. -/
def mid_hip (w h : ℤ) (lms : List Landmark) : ℚ × ℚ :=
  let left_hip := fp w h lms 23
  let right_hip := fp w h lms 24
  (((left_hip.1 + right_hip.1 : ℤ) : ℚ) / 2,
   ((left_hip.2 + right_hip.2 : ℤ) : ℚ) / 2)

/-- Torso normalization distance (main.py lines 110-118): Euclidean distance
between the shoulder midpoint and the hip midpoint; when below 1 pixel the
fallback scale `max(height, width) / 4.0` is substituted. -/
noncomputable def torso_dist (w h : ℤ) (lms : List Landmark) : ℝ :=
  let d := euclidian (toRQ (mid_sh w h lms)) (toRQ (mid_hip w h lms))
  if d < 1 then ((max h w : ℤ) : ℝ) / 4 else d

/-- Mountain Pose left-arm sub-score (main.py lines 132, 142): the penalized
angle is `angle_calc(left_wrist, left_shoulder, left_elbow)`, whose vertex is
the second argument, the shoulder (landmarks 15, 11, 13). -/
noncomputable def mountain_left_arm_score (w h : ℤ) (lms : List Landmark) : ℝ :=
  let left_arm_angle := angle_calc (fp w h lms 15) (fp w h lms 11) (fp w h lms 13)
  max 0 (15 * (1 - |(left_arm_angle : ℝ) - 170| / 40))

/-- Mountain Pose right-arm sub-score (main.py lines 133, 143): penalized
angle is `angle_calc(right_wrist, right_shoulder, right_elbow)`
(landmarks 16, 12, 14), vertex at the shoulder. -/
noncomputable def mountain_right_arm_score (w h : ℤ) (lms : List Landmark) : ℝ :=
  let right_arm_angle := angle_calc (fp w h lms 16) (fp w h lms 12) (fp w h lms 14)
  max 0 (15 * (1 - |(right_arm_angle : ℝ) - 170| / 40))

/-- Mountain Pose raw accuracy (main.py lines 123-153), weights from
`POSE_CONFIG[1]` (feet 50, shoulders 20, 15 per arm, arm tolerance 40). -/
noncomputable def mountain_accuracy (w h : ℤ) (lms : List Landmark) : ℝ :=
  let td := torso_dist w h lms
  let left_shoulder := fp w h lms 11
  let right_shoulder := fp w h lms 12
  let left_ankle := fp w h lms 27
  let right_ankle := fp w h lms 28
  let shoulder_gap : ℤ := |left_shoulder.1 - right_shoulder.1|
  let ankle_gap : ℤ := |left_ankle.1 - right_ankle.1|
  let feet_score := max 0 (50 * (1 - (ankle_gap : ℝ) / (td * (6 / 10))))
  let shoulder_score := max 0 (20 * (1 - (shoulder_gap : ℝ) / (td * (9 / 10))))
  min 100 (max 0 (feet_score + shoulder_score
    + mountain_left_arm_score w h lms + mountain_right_arm_score w h lms))

/-- Tree Pose raw accuracy (main.py lines 155-189). -/
noncomputable def tree_accuracy (w h : ℤ) (lms : List Landmark) : ℝ :=
  let td := torso_dist w h lms
  let left_hip := fp w h lms 23
  let right_hip := fp w h lms 24
  let left_ankle := fp w h lms 27
  let right_ankle := fp w h lms 28
  let hip_ankle_l := euclidian (toRZ left_hip) (toRZ left_ankle)
  let hip_ankle_r := euclidian (toRZ right_hip) (toRZ right_ankle)
  let left_leg_raised : Prop := (left_ankle.2 : ℝ) < (left_hip.2 : ℝ) - td * (35 / 100)
  let right_leg_raised : Prop := (right_ankle.2 : ℝ) < (right_hip.2 : ℝ) - td * (35 / 100)
  let leg_accuracy : ℝ := if left_leg_raised then 40 else if right_leg_raised then 40 else 0
  let balance_diff : ℝ :=
    if left_leg_raised then hip_ankle_l
    else if right_leg_raised then hip_ankle_r
    else max hip_ankle_l hip_ankle_r
  let balance_accuracy := max 0 (30 * (1 - |hip_ankle_l - hip_ankle_r| / (td * (6 / 10))))
  let standing_accuracy := max 0 (30 * (1 - |balance_diff - td * (75 / 100)| / (td * (75 / 100))))
  min 100 (max 0 (leg_accuracy + balance_accuracy + standing_accuracy))

/-- Warrior Pose raw accuracy (main.py lines 191-220). -/
noncomputable def warrior_accuracy (w h : ℤ) (lms : List Landmark) : ℝ :=
  let td := torso_dist w h lms
  let left_leg_angle := angle_calc (fp w h lms 23) (fp w h lms 25) (fp w h lms 27)
  let right_leg_angle := angle_calc (fp w h lms 24) (fp w h lms 26) (fp w h lms 28)
  let left_arm_raised : Prop :=
    ((fp w h lms 15).2 : ℝ) < ((fp w h lms 11).2 : ℝ) - td * (4 / 10)
  let right_arm_raised : Prop :=
    ((fp w h lms 16).2 : ℝ) < ((fp w h lms 12).2 : ℝ) - td * (4 / 10)
  let leg_bend_accuracy :=
    max 0 (40 * (1 - |((min left_leg_angle right_leg_angle : ℤ) : ℝ) - 90| / 90))
  let arms_accuracy : ℝ := if left_arm_raised ∨ right_arm_raised then 30 else 0
  let stance_accuracy : ℝ := if |left_leg_angle - right_leg_angle| < 50 then 30 else 10
  min 100 (max 0 (leg_bend_accuracy + arms_accuracy + stance_accuracy))

/-- Child Pose raw accuracy (main.py lines 222-243). -/
noncomputable def child_accuracy (w h : ℤ) (lms : List Landmark) : ℝ :=
  let td := torso_dist w h lms
  let nose := fp w h lms 0
  let left_hip := fp w h lms 23
  let right_hip := fp w h lms 24
  let left_knee := fp w h lms 25
  let right_knee := fp w h lms 26
  let hip_center_y : ℚ := ((left_hip.2 + right_hip.2 : ℤ) : ℚ) / 2
  let knees_bent : Prop :=
    ((left_hip.2 : ℝ) + td * (2 / 10) < (left_knee.2 : ℝ))
      ∧ ((right_hip.2 : ℝ) + td * (2 / 10) < (right_knee.2 : ℝ))
  let fold_accuracy :=
    max 0 (50 * (1 - max 0 ((hip_center_y : ℝ) - (nose.2 : ℝ)) / (td * (6 / 10))))
  let knee_accuracy : ℝ :=
    if knees_bent then 50
    else max 0 (50 * (1 - |((left_knee.2 - left_hip.2 : ℤ) : ℝ)| / (td * (6 / 10))))
  min 100 (max 0 (fold_accuracy + knee_accuracy))

/-- Lotus Pose raw accuracy (main.py lines 245-268). -/
noncomputable def lotus_accuracy (w h : ℤ) (lms : List Landmark) : ℝ :=
  let td := torso_dist w h lms
  let nose := fp w h lms 0
  let left_hip := fp w h lms 23
  let right_hip := fp w h lms 24
  let left_shoulder := fp w h lms 11
  let right_shoulder := fp w h lms 12
  let left_knee := fp w h lms 25
  let right_knee := fp w h lms 26
  let hip_center_y : ℚ := ((left_hip.2 + right_hip.2 : ℤ) : ℚ) / 2
  let shoulder_y : ℚ := ((left_shoulder.2 + right_shoulder.2 : ℤ) : ℚ) / 2
  let upright_accuracy := max 0 (50 * (1 - |(nose.2 : ℝ) - (hip_center_y : ℝ)| / (td * (6 / 10))))
  let spine_accuracy := max 0 (30 * (1 - |(shoulder_y : ℝ) - (nose.2 : ℝ)| / (td * (6 / 10))))
  let legs_accuracy : ℝ :=
    if left_hip.2 < left_knee.2 ∧ right_hip.2 < right_knee.2 then 20 else 5
  min 100 (max 0 (upright_accuracy + spine_accuracy + legs_accuracy))

/-- `check_pose_accuracy(pose_level, results)` (main.py lines 103-275).  The
input is `none` when there is no results object or no pose landmarks; in that
case `(False, 0.0)` is returned at once.  Otherwise the level-specific raw
accuracy (already clamped to `[0, 100]` per branch, and `0.0` for levels
outside 1-5) is returned together with `accuracy >= ACCURACY_THRESHOLD`. -/
noncomputable def check_pose_accuracy (w h : ℤ) (pose_level : ℤ)
    (input : Option (List Landmark)) : Bool × ℝ :=
  match input with
  | none => (false, 0)
  | some lms =>
    let accuracy : ℝ :=
      if pose_level = 1 then mountain_accuracy w h lms
      else if pose_level = 2 then tree_accuracy w h lms
      else if pose_level = 3 then warrior_accuracy w h lms
      else if pose_level = 4 then child_accuracy w h lms
      else if pose_level = 5 then lotus_accuracy w h lms
      else 0
    (decide ((ACCURACY_THRESHOLD : ℝ) ≤ accuracy), accuracy)

/-- Append to a `deque(maxlen=SMOOTHING_WINDOW)` (main.py line 580): the new
value goes on the right and, when the buffer is full, the oldest (leftmost)
entry is evicted so that only the last `SMOOTHING_WINDOW` entries remain. -/
def deque_append (buf : List ℚ) (x : ℚ) : List ℚ :=
  let b := buf ++ [x]
  b.drop (b.length - SMOOTHING_WINDOW)

/-- Arithmetic mean of the history buffer, as computed on main.py line 681
(`sum(...) / len(...)`). -/
def buffer_mean (buf : List ℚ) : ℚ :=
  buf.sum / (buf.length : ℚ)

/-- Per-frame smoothing step (main.py lines 679-681): the raw accuracy is
multiplied by `SENSITIVITY` and clamped to at most 100, the adjusted value is
appended to the current level's rolling history, and the smoothed accuracy is
the arithmetic mean of the resulting buffer. -/
def smooth_step (buf : List ℚ) (raw : ℚ) : List ℚ × ℚ :=
  let adjusted := min 100 (raw * SENSITIVITY)
  let buf2 := deque_append buf adjusted
  (buf2, buffer_mean buf2)

/-- Per-level required hold times (`timing_settings`, main.py line 558).
Looking up a level outside 1-5 raises `KeyError` in the source; that case is
unreachable (the level invariant is 1-5) and is mapped to 0 here. -/
def timing_settings (level : ℤ) : ℚ :=
  if level = 1 then 2
  else if level = 2 then 3
  else if level = 3 then 5 / 2
  else if level = 4 then 2
  else if level = 5 then 3
  else 0

/-- Session state mutated once per frame by the main loop
(main.py lines 550-560: `current_level`, `pose_correct`, `level_complete`,
`pose_hold_time`, `last_incorrect_feedback_time`). -/
structure SessionState where
  current_level : ℤ
  pose_correct : Bool
  level_complete : Bool
  pose_hold_time : ℚ
  last_incorrect_feedback_time : ℚ
deriving DecidableEq

/-- Feedback events emitted to the speech collaborator during one frame. -/
inductive FeedbackEvent where
  | poseAchieved : FeedbackEvent
  | incorrectPose : FeedbackEvent
  | levelComplete : ℤ → FeedbackEvent
  | levelsRestart : FeedbackEvent
deriving DecidableEq

/-- Per-frame transition of the progression state machine (main.py lines
710-763), driven by the smoothed accuracy and the current wall-clock time
`now`.  The two adjacent `time.time()` calls on lines 713 and 716 are
modelled as the same instant `now`, so the hold duration on the frame that
starts a hold is exactly 0. -/
def step (s : SessionState) (now smoothed : ℚ) : SessionState × List FeedbackEvent :=
  if ACCURACY_THRESHOLD ≤ smoothed then
    -- `is_correct` branch (line 710)
    let start_evs : List FeedbackEvent := if s.pose_correct then [] else [.poseAchieved]
    let holdStart : ℚ := if s.pose_correct then s.pose_hold_time else now
    let hold_duration := now - holdStart
    let required := timing_settings s.current_level
    if required ≤ hold_duration ∧ s.level_complete = false then
      -- fire level completion (lines 723-745)
      if s.current_level < 5 then
        (⟨s.current_level + 1, false, false, holdStart, 0⟩,
         start_evs ++ [.levelComplete s.current_level])
      else
        (⟨1, false, false, holdStart, 0⟩,
         start_evs ++ [.levelComplete s.current_level, .levelsRestart])
    else
      (⟨s.current_level, true, s.level_complete, holdStart, 0⟩, start_evs)
  else
    -- incorrect branch (lines 753-763)
    if s.pose_correct then
      (⟨s.current_level, false, false, s.pose_hold_time, now⟩, [.incorrectPose])
    else if s.last_incorrect_feedback_time = 0 ∨ 2 < now - s.last_incorrect_feedback_time then
      (⟨s.current_level, false, false, s.pose_hold_time, now⟩, [.incorrectPose])
    else
      (⟨s.current_level, false, false, s.pose_hold_time, s.last_incorrect_feedback_time⟩, [])

/-- Run the state machine over a list of frames, each a pair of the frame
time and the smoothed accuracy, collecting all emitted events. -/
def run : SessionState → List (ℚ × ℚ) → SessionState × List FeedbackEvent
  | s, [] => (s, [])
  | s, f :: rest =>
    let r1 := step s f.1 f.2
    let r2 := run r1.1 rest
    (r2.1, r1.2 ++ r2.2)

/-- Recognize a level-completion event. -/
def isCompletion : FeedbackEvent → Bool
  | .levelComplete _ => true
  | _ => false

/-- Number of level-completion firings in an event trace. -/
def numCompletions (evs : List FeedbackEvent) : ℕ :=
  (evs.filter isCompletion).length

/-- Clamping `min 100 (max 0 x)` always lands in `[0, 100]`. -/
lemma clamp_mem_Icc (x : ℝ) : 0 ≤ min 100 (max 0 x) ∧ min 100 (max 0 x) ≤ 100 :=
  ⟨le_min (by norm_num) (le_max_left 0 x), min_le_left _ _⟩

lemma mountain_accuracy_mem (w h : ℤ) (lms : List Landmark) :
    0 ≤ mountain_accuracy w h lms ∧ mountain_accuracy w h lms ≤ 100 :=
  clamp_mem_Icc _

lemma tree_accuracy_mem (w h : ℤ) (lms : List Landmark) :
    0 ≤ tree_accuracy w h lms ∧ tree_accuracy w h lms ≤ 100 :=
  clamp_mem_Icc _

lemma warrior_accuracy_mem (w h : ℤ) (lms : List Landmark) :
    0 ≤ warrior_accuracy w h lms ∧ warrior_accuracy w h lms ≤ 100 :=
  clamp_mem_Icc _

lemma child_accuracy_mem (w h : ℤ) (lms : List Landmark) :
    0 ≤ child_accuracy w h lms ∧ child_accuracy w h lms ≤ 100 :=
  clamp_mem_Icc _

lemma lotus_accuracy_mem (w h : ℤ) (lms : List Landmark) :
    0 ≤ lotus_accuracy w h lms ∧ lotus_accuracy w h lms ≤ 100 :=
  clamp_mem_Icc _

/-- C1: for every pose level (integer, including levels outside 1-5) and
every landmark input (including absent landmarks), the accuracy returned by
`check_pose_accuracy` lies in the closed interval `[0, 100]`.  The positivity
hypotheses on the frame dimensions delimit the domain on which the Python
code is exception-free (with a degenerate 0x0 frame the fallback torso scale
would be 0 and the Python divisions would raise). -/
theorem check_pose_accuracy_in_range (w h : ℤ) (pose_level : ℤ)
    (input : Option (List Landmark)) (hw : 0 < w) (hh : 0 < h) :
    0 ≤ (check_pose_accuracy w h pose_level input).2
      ∧ (check_pose_accuracy w h pose_level input).2 ≤ 100 := by
  match input with
  | none => exact ⟨le_refl 0, by norm_num [check_pose_accuracy]⟩
  | some lms =>
    show 0 ≤ (_, ite _ _ _).2 ∧ (_, ite _ _ _).2 ≤ 100
    split_ifs
    · exact mountain_accuracy_mem w h lms
    · exact tree_accuracy_mem w h lms
    · exact warrior_accuracy_mem w h lms
    · exact child_accuracy_mem w h lms
    · exact lotus_accuracy_mem w h lms
    · exact ⟨le_refl 0, by norm_num⟩

/-- Witness for C1 at a concrete frame size, level and landmark list. -/
theorem check_pose_accuracy_in_range_witness :
    (0 : ℤ) < 640 ∧ (0 : ℤ) < 480
      ∧ (0 ≤ (check_pose_accuracy 640 480 2 (some [⟨1/2, 1/2⟩])).2
          ∧ (check_pose_accuracy 640 480 2 (some [⟨1/2, 1/2⟩])).2 ≤ 100) :=
  ⟨by decide, by decide,
    check_pose_accuracy_in_range 640 480 2 (some [⟨1/2, 1/2⟩]) (by decide) (by decide)⟩

/-- C2: absent landmark input (no results object or no pose landmarks) yields
exactly `(false, 0.0)` for every pose level and frame size
(main.py lines 104-105). -/
theorem check_pose_accuracy_absent (w h : ℤ) (pose_level : ℤ) :
    check_pose_accuracy w h pose_level none = (false, 0) :=
  rfl

/-- C3: the smoothing step multiplies the raw accuracy by `SENSITIVITY`
(1.08 = 27/25), clamps the product to at most 100, appends the adjusted value
to the current level's capacity-4 FIFO history (evicting the oldest entry
when the buffer is full), and reports the arithmetic mean of the buffer; in
particular appending 80, 80, 80, 80 to an empty buffer gives the buffer
`[80, 80, 80, 80]` with mean 80, and appending a fifth value 0 evicts the
first 80, giving `[80, 80, 80, 0]` with mean 60. -/
theorem smoothing_fifo_mean_spec :
    (∀ (buf : List ℚ) (raw : ℚ),
        (smooth_step buf raw).1 = deque_append buf (min 100 (raw * (27 / 25)))
          ∧ (smooth_step buf raw).2 = buffer_mean (smooth_step buf raw).1)
    ∧ (∀ (buf : List ℚ) (x : ℚ), (deque_append buf x).length = min (buf.length + 1) 4)
    ∧ (∀ (buf : List ℚ) (x : ℚ), buf.length = 4 → deque_append buf x = buf.tail ++ [x])
    ∧ (deque_append (deque_append (deque_append (deque_append [] 80) 80) 80) 80
          = ([80, 80, 80, 80] : List ℚ)
        ∧ buffer_mean [80, 80, 80, 80] = 80)
    ∧ (deque_append [80, 80, 80, 80] 0 = ([80, 80, 80, 0] : List ℚ)
        ∧ buffer_mean [80, 80, 80, 0] = 60) := by
  refine ⟨fun buf raw => ⟨rfl, rfl⟩, fun buf x => ?_, fun buf x hlen => ?_,
    ⟨by decide, by norm_num [buffer_mean]⟩, ⟨by decide, by norm_num [buffer_mean]⟩⟩
  · simp only [deque_append, SMOOTHING_WINDOW, List.length_drop, List.length_append,
      List.length_singleton]
    omega
  · match buf, hlen with
    | a :: t, hlen =>
      simp only [deque_append, SMOOTHING_WINDOW, List.length_append, List.length_cons,
        List.length_singleton, List.tail_cons, List.cons_append]
      have : t.length = 3 := by simpa using hlen
      simp [this]

/-- Witness for C3's hypothesis-bearing conjunct: a full buffer of length 4
evicts its oldest entry. -/
theorem smoothing_fifo_mean_spec_witness :
    ([80, 80, 80, 80] : List ℚ).length = 4
      ∧ deque_append [80, 80, 80, 80] 0 = ([80, 80, 80, 80] : List ℚ).tail ++ [0] :=
  ⟨by decide, smoothing_fifo_mean_spec.2.2.1 [80, 80, 80, 80] 0 (by decide)⟩

/-- Effect of an incorrect frame on the two flags (main.py lines 762-763). -/
lemma step_incorrect_flags (s : SessionState) (now sm : ℚ)
    (h : ¬ ACCURACY_THRESHOLD ≤ sm) :
    (step s now sm).1.pose_correct = false ∧ (step s now sm).1.level_complete = false := by
  simp only [step, if_neg h]
  split_ifs <;> exact ⟨rfl, rfl⟩

/-- A correct frame reaching a state that is not holding re-records the
hold-start timestamp as the current time (main.py lines 712-713). -/
lemma step_correct_records_hold_start (s : SessionState) (now sm : ℚ)
    (hpc : s.pose_correct = false) (hsm : ACCURACY_THRESHOLD ≤ sm) :
    (step s now sm).1.pose_hold_time = now := by
  simp only [step, if_pos hsm, hpc, Bool.false_eq_true, if_false]
  split_ifs <;> rfl

/-- C5: a single frame judged incorrect (smoothed accuracy below the 55.0
threshold) immediately clears the pose-correct flag and the level-completion
flag, and on any following correct frame the hold-start timestamp is
re-recorded as that frame's time, so hold progress restarts from zero. -/
theorem incorrect_frame_clears_hold (s : SessionState) (now smoothed : ℚ)
    (h : smoothed < ACCURACY_THRESHOLD) :
    ((step s now smoothed).1.pose_correct = false
        ∧ (step s now smoothed).1.level_complete = false)
    ∧ ∀ now2 smoothed2 : ℚ, ACCURACY_THRESHOLD ≤ smoothed2 →
        (step (step s now smoothed).1 now2 smoothed2).1.pose_hold_time = now2 := by
  have hnot : ¬ ACCURACY_THRESHOLD ≤ smoothed := not_le.mpr h
  refine ⟨step_incorrect_flags s now smoothed hnot, fun now2 smoothed2 h2 => ?_⟩
  exact step_correct_records_hold_start _ now2 smoothed2
    (step_incorrect_flags s now smoothed hnot).1 h2

/-- Witness for C5 at a concrete state and frame pair. -/
theorem incorrect_frame_clears_hold_witness :
    (50 : ℚ) < ACCURACY_THRESHOLD
      ∧ (((step ⟨2, true, false, 0, 0⟩ 1 50).1.pose_correct = false
            ∧ (step ⟨2, true, false, 0, 0⟩ 1 50).1.level_complete = false)
          ∧ ∀ now2 smoothed2 : ℚ, ACCURACY_THRESHOLD ≤ smoothed2 →
              (step (step ⟨2, true, false, 0, 0⟩ 1 50).1 now2 smoothed2).1.pose_hold_time = now2) :=
  ⟨by decide, incorrect_frame_clears_hold ⟨2, true, false, 0, 0⟩ 1 50 (by decide)⟩

/-- Indices at or beyond the list length take the `(0, 0)` fallback branch of
`find_point`. -/
lemma find_point_of_length_le (w h : ℤ) (lms : List Landmark) (p : ℤ)
    (hp : (lms.length : ℤ) ≤ p) : find_point w h lms p = some (0, 0) := by
  unfold find_point
  rw [if_neg (not_lt.mpr hp)]

/-- In-range nonnegative indices scale the landmark at that position. -/
lemma find_point_of_nonneg (w h : ℤ) (lms : List Landmark) (p : ℤ)
    (h0 : 0 ≤ p) (hlt : p < (lms.length : ℤ)) :
    find_point w h lms p
      = (lms.get? p.toNat).map fun lm => (pyInt (lm.x * w), pyInt (lm.y * h)) := by
  unfold find_point pyIndex
  rw [if_pos hlt, if_pos h0]

/-- In-range negative indices scale the landmark at position `length + p`
(Python indexing from the back). -/
lemma find_point_of_neg (w h : ℤ) (lms : List Landmark) (p : ℤ)
    (hge : -(lms.length : ℤ) ≤ p) (hneg : p < 0) :
    find_point w h lms p
      = (lms.get? ((lms.length : ℤ) + p).toNat).map
          fun lm => (pyInt (lm.x * w), pyInt (lm.y * h)) := by
  have hlt : p < (lms.length : ℤ) := lt_of_lt_of_le hneg (Int.ofNat_nonneg lms.length)
  unfold find_point pyIndex
  rw [if_pos hlt, if_neg (not_le.mpr hneg), if_neg (by omega : ¬ p + (lms.length : ℤ) < 0)]
  rw [show p + (lms.length : ℤ) = (lms.length : ℤ) + p from add_comm _ _]

/-- For any index not below `-length`, `find_point` produces a value
(no exception). -/
lemma find_point_isSome (w h : ℤ) (lms : List Landmark) (p : ℤ)
    (hge : -(lms.length : ℤ) ≤ p) : (find_point w h lms p).isSome = true := by
  rcases le_or_lt (lms.length : ℤ) p with hbig | hlt
  · rw [find_point_of_length_le w h lms p hbig]
    rfl
  · rcases le_or_lt 0 p with h0 | hneg
    · rw [find_point_of_nonneg w h lms p h0 hlt]
      have hn : p.toNat < lms.length := by omega
      rw [List.get?_eq_get hn]
      rfl
    · rw [find_point_of_neg w h lms p hge hneg]
      have hn : ((lms.length : ℤ) + p).toNat < lms.length := by omega
      rw [List.get?_eq_get hn]
      rfl

/-- C8 counterexample: with a one-landmark list and index `-2`, the guard
`p < len(landmarks)` passes and the Python list access raises `IndexError`
(modelled as `none`), so `find_point` neither returns `(0, 0)` nor scaled
coordinates: the claim that it never raises fails. -/
theorem find_point_raises_on_very_negative_index :
    find_point 640 480 [⟨0, 0⟩] (-2) = none := by
  rfl

/-- C8 amended: for every landmark list and every index `p ≥ -length`,
`find_point` never raises: if `p ≥ length` it returns `(0, 0)`; if
`0 ≤ p < length` it returns the landmark's coordinates scaled by the frame
width and height as truncated integer pixel coordinates; and if
`-length ≤ p < 0` it returns the scaled coordinates of the landmark at
position `length + p`.  (For `p < -length` the Python code raises
`IndexError`.) -/
theorem find_point_total_on_valid_indices (w h : ℤ) (lms : List Landmark) (p : ℤ)
    (hge : -(lms.length : ℤ) ≤ p) :
    (find_point w h lms p).isSome = true
    ∧ ((lms.length : ℤ) ≤ p → find_point w h lms p = some (0, 0))
    ∧ (0 ≤ p → p < (lms.length : ℤ) →
        find_point w h lms p
          = (lms.get? p.toNat).map fun lm => (pyInt (lm.x * w), pyInt (lm.y * h)))
    ∧ (p < 0 →
        find_point w h lms p
          = (lms.get? ((lms.length : ℤ) + p).toNat).map
              fun lm => (pyInt (lm.x * w), pyInt (lm.y * h))) :=
  ⟨find_point_isSome w h lms p hge,
   fun hbig => find_point_of_length_le w h lms p hbig,
   fun h0 hlt => find_point_of_nonneg w h lms p h0 hlt,
   fun hneg => find_point_of_neg w h lms p hge hneg⟩

/-- Witness for the amended C8 statement at a concrete list and index. -/
theorem find_point_total_on_valid_indices_witness :
    -(([⟨0, 0⟩, ⟨1, 1⟩] : List Landmark).length : ℤ) ≤ 2
    ∧ ((find_point 640 480 [⟨0, 0⟩, ⟨1, 1⟩] 2).isSome = true
      ∧ ((([⟨0, 0⟩, ⟨1, 1⟩] : List Landmark).length : ℤ) ≤ 2 →
          find_point 640 480 [⟨0, 0⟩, ⟨1, 1⟩] 2 = some (0, 0))
      ∧ ((0 : ℤ) ≤ 2 → (2 : ℤ) < (([⟨0, 0⟩, ⟨1, 1⟩] : List Landmark).length : ℤ) →
          find_point 640 480 [⟨0, 0⟩, ⟨1, 1⟩] 2
            = (([⟨0, 0⟩, ⟨1, 1⟩] : List Landmark).get? (2 : ℤ).toNat).map
                fun lm => (pyInt (lm.x * 640), pyInt (lm.y * 480)))
      ∧ ((2 : ℤ) < 0 →
          find_point 640 480 [⟨0, 0⟩, ⟨1, 1⟩] 2
            = (([⟨0, 0⟩, ⟨1, 1⟩] : List Landmark).get?
                  ((([⟨0, 0⟩, ⟨1, 1⟩] : List Landmark).length : ℤ) + 2).toNat).map
                fun lm => (pyInt (lm.x * 640), pyInt (lm.y * 480)))) :=
  ⟨by decide, find_point_total_on_valid_indices 640 480 [⟨0, 0⟩, ⟨1, 1⟩] 2 (by decide)⟩

/-- C10: a negative index `p` with `-length ≤ p < 0` satisfies the guard
`p < len(landmarks)`, so `find_point` does not take the `(0, 0)` fallback
branch: it returns the scaled coordinates of the landmark at the in-range
position `length + p` (Python negative indexing). -/
theorem find_point_negative_index_wraps (w h : ℤ) (lms : List Landmark) (p : ℤ)
    (hge : -(lms.length : ℤ) ≤ p) (hneg : p < 0) :
    p < (lms.length : ℤ)
    ∧ ((lms.length : ℤ) + p).toNat < lms.length
    ∧ find_point w h lms p
        = (lms.get? ((lms.length : ℤ) + p).toNat).map
            fun lm => (pyInt (lm.x * w), pyInt (lm.y * h)) :=
  ⟨lt_of_lt_of_le hneg (Int.ofNat_nonneg lms.length),
   by omega,
   find_point_of_neg w h lms p hge hneg⟩

/-- Witness for C10 at a concrete two-landmark list and index `-1`. -/
theorem find_point_negative_index_wraps_witness :
    -(([⟨0, 0⟩, ⟨1, 1⟩] : List Landmark).length : ℤ) ≤ -1 ∧ (-1 : ℤ) < 0
    ∧ ((-1 : ℤ) < (([⟨0, 0⟩, ⟨1, 1⟩] : List Landmark).length : ℤ)
      ∧ ((([⟨0, 0⟩, ⟨1, 1⟩] : List Landmark).length : ℤ) + -1).toNat
          < ([⟨0, 0⟩, ⟨1, 1⟩] : List Landmark).length
      ∧ find_point 640 480 [⟨0, 0⟩, ⟨1, 1⟩] (-1)
          = (([⟨0, 0⟩, ⟨1, 1⟩] : List Landmark).get?
                ((([⟨0, 0⟩, ⟨1, 1⟩] : List Landmark).length : ℤ) + -1).toNat).map
              fun lm => (pyInt (lm.x * 640), pyInt (lm.y * 480))) :=
  ⟨by decide, by decide,
   find_point_negative_index_wraps 640 480 [⟨0, 0⟩, ⟨1, 1⟩] (-1) (by decide) (by decide)⟩

/-- Rational point viewed as a point of the complex (Euclidean) plane. -/
noncomputable def zq (p : ℚ × ℚ) : ℂ :=
  Complex.mk (p.1 : ℝ) (p.2 : ℝ)

/-- The source's `euclidian` on two float points is exactly the metric-space
distance between the corresponding points of the Euclidean plane. -/
lemma euclidian_eq_dist (a b : ℚ × ℚ) : euclidian (toRQ a) (toRQ b) = dist (zq a) (zq b) := by
  rw [Complex.dist_eq, Complex.abs_apply, Complex.normSq_apply]
  show Real.sqrt _ = Real.sqrt _
  congr 1
  show ((a.1 : ℝ) - (b.1 : ℝ)) ^ 2 + ((a.2 : ℝ) - (b.2 : ℝ)) ^ 2 = _
  show _ = ((a.1 : ℝ) - (b.1 : ℝ)) * ((a.1 : ℝ) - (b.1 : ℝ))
    + ((a.2 : ℝ) - (b.2 : ℝ)) * ((a.2 : ℝ) - (b.2 : ℝ))
  ring

/-- C9: the torso normalization distance equals the Euclidean distance
between the shoulder midpoint and the hip midpoint, except that when that
distance is below 1 pixel, one quarter of `max(frameHeight, frameWidth)` is
substituted as the normalization scale. -/
theorem torso_dist_euclidean_with_fallback (w h : ℤ) (lms : List Landmark) :
    torso_dist w h lms =
      if dist (zq (mid_sh w h lms)) (zq (mid_hip w h lms)) < 1
      then ((max h w : ℤ) : ℝ) / 4
      else dist (zq (mid_sh w h lms)) (zq (mid_hip w h lms)) := by
  show (if euclidian (toRQ (mid_sh w h lms)) (toRQ (mid_hip w h lms)) < 1 then _ else
    euclidian (toRQ (mid_sh w h lms)) (toRQ (mid_hip w h lms))) = _
  rw [euclidian_eq_dist]

/-- The required hold time of every reachable level (1-5) is positive. -/
lemma timing_settings_pos (l : ℤ) (h1 : 1 ≤ l) (h5 : l ≤ 5) : 0 < timing_settings l := by
  unfold timing_settings
  split_ifs <;> norm_num
  omega

/-- A correct frame arriving while holding, before the required time has
elapsed and with the completion flag clear, leaves the state unchanged and
emits nothing. -/
lemma step_holding_no_fire (l : ℤ) (t0 now sm : ℚ)
    (hsm : ACCURACY_THRESHOLD ≤ sm) (hnf : now - t0 < timing_settings l) :
    step ⟨l, true, false, t0, 0⟩ now sm = (⟨l, true, false, t0, 0⟩, []) := by
  simp only [step, if_pos hsm]
  norm_num
  intro hc
  exact absurd hc (not_le.mpr hnf)

/-- A correct frame arriving while not holding starts a hold: the hold-start
timestamp is recorded and a pose-achieved feedback is emitted, but no
completion can fire on this very frame since the required time is positive. -/
lemma step_start_hold (l : ℤ) (lif t now sm : ℚ)
    (hsm : ACCURACY_THRESHOLD ≤ sm) (hreq : 0 < timing_settings l) :
    step ⟨l, false, false, t, lif⟩ now sm
      = (⟨l, true, false, now, 0⟩, [FeedbackEvent.poseAchieved]) := by
  simp only [step, if_pos hsm]
  norm_num
  intro hc
  exact absurd hc (not_le.mpr hreq)

/-- A correct frame arriving while holding, once the required time has
elapsed, fires level completion; below level 5 this advances to the next
level and clears both flags. -/
lemma step_fire_advance (l : ℤ) (t0 now sm : ℚ)
    (hsm : ACCURACY_THRESHOLD ≤ sm) (hfire : timing_settings l ≤ now - t0) (hlt : l < 5) :
    step ⟨l, true, false, t0, 0⟩ now sm
      = (⟨l + 1, false, false, t0, 0⟩, [FeedbackEvent.levelComplete l]) := by
  simp only [step, if_pos hsm]
  norm_num [hfire, hlt]

/-- Firing level completion at level 5 wraps back to level 1 with a restart
signal and clears both flags. -/
lemma step_fire_wrap (l : ℤ) (t0 now sm : ℚ)
    (hsm : ACCURACY_THRESHOLD ≤ sm) (hfire : timing_settings l ≤ now - t0) (hge : ¬ l < 5) :
    step ⟨l, true, false, t0, 0⟩ now sm
      = (⟨1, false, false, t0, 0⟩,
         [FeedbackEvent.levelComplete l, FeedbackEvent.levelsRestart]) := by
  simp only [step, if_pos hsm]
  norm_num [hfire, hge]

/-- Running the machine over correct frames that all arrive before the
required hold time has elapsed changes nothing and emits nothing. -/
lemma run_holding_no_fire (l : ℤ) (t0 : ℚ) (mid : List (ℚ × ℚ))
    (hmid : ∀ f ∈ mid, ACCURACY_THRESHOLD ≤ f.2 ∧ f.1 - t0 < timing_settings l) :
    run ⟨l, true, false, t0, 0⟩ mid = (⟨l, true, false, t0, 0⟩, []) := by
  induction mid with
  | nil => rfl
  | cons f t ih =>
    have hf := hmid f (List.mem_cons_self f t)
    simp only [run]
    rw [step_holding_no_fire l t0 f.1 f.2 hf.1 hf.2,
      ih fun g hg => hmid g (List.mem_cons_of_mem f hg)]
    rfl

/-- Runs decompose along list concatenation. -/
lemma run_append (s : SessionState) (l1 l2 : List (ℚ × ℚ)) :
    run s (l1 ++ l2)
      = ((run (run s l1).1 l2).1, (run s l1).2 ++ (run (run s l1).1 l2).2) := by
  induction l1 generalizing s with
  | nil => simp [run]
  | cons f t ih =>
    simp only [List.cons_append, run, List.append_eq, ih, List.append_assoc]

/-- C4: starting not holding at level `l` (1-5), over a run of frames whose
smoothed accuracy stays at or above the 55.0 threshold, where all frames
before the last arrive before the level's required hold time (Mountain 2.0s,
Tree 3.0s, Warrior 2.5s, Child 2.0s, Lotus 3.0s) has elapsed since the first
frame, and the last frame arrives at or after it: level completion fires
exactly once in the whole run (not repeatedly), advancing to the next level
(or wrapping from level 5 back to level 1, with the restart signal emitted
exactly in that case) and clearing the hold/correctness flags. -/
theorem hold_completion_fires_once (l : ℤ) (hl1 : 1 ≤ l) (hl5 : l ≤ 5)
    (s0 : SessionState) (hpc : s0.pose_correct = false) (hlc : s0.level_complete = false)
    (hcl : s0.current_level = l)
    (t0 a0 : ℚ) (ha0 : ACCURACY_THRESHOLD ≤ a0)
    (mid : List (ℚ × ℚ))
    (hmid : ∀ f ∈ mid, ACCURACY_THRESHOLD ≤ f.2 ∧ f.1 - t0 < timing_settings l)
    (tn an : ℚ) (han : ACCURACY_THRESHOLD ≤ an) (htn : timing_settings l ≤ tn - t0) :
    (timing_settings 1 = 2 ∧ timing_settings 2 = 3 ∧ timing_settings 3 = 5 / 2
      ∧ timing_settings 4 = 2 ∧ timing_settings 5 = 3)
    ∧ numCompletions (run s0 ((t0, a0) :: (mid ++ [(tn, an)]))).2 = 1
    ∧ (run s0 ((t0, a0) :: (mid ++ [(tn, an)]))).1.current_level
        = (if l < 5 then l + 1 else 1)
    ∧ ((FeedbackEvent.levelsRestart ∈ (run s0 ((t0, a0) :: (mid ++ [(tn, an)]))).2) ↔ l = 5)
    ∧ (run s0 ((t0, a0) :: (mid ++ [(tn, an)]))).1.pose_correct = false
    ∧ (run s0 ((t0, a0) :: (mid ++ [(tn, an)]))).1.level_complete = false := by
  subst hcl
  obtain ⟨l, pc, lc, pht, lif⟩ := s0
  simp only at hpc hlc hl1 hl5 hmid htn ⊢
  subst hpc
  subst hlc
  have hreq := timing_settings_pos l hl1 hl5
  have hrun : run (⟨l, false, false, pht, lif⟩ : SessionState) ((t0, a0) :: (mid ++ [(tn, an)]))
      = ((run (⟨l, true, false, t0, 0⟩ : SessionState) (mid ++ [(tn, an)])).1,
         [FeedbackEvent.poseAchieved]
           ++ (run (⟨l, true, false, t0, 0⟩ : SessionState) (mid ++ [(tn, an)])).2) := by
    simp only [run]
    rw [step_start_hold l lif pht t0 a0 ha0 hreq]
  have hmidrun := run_holding_no_fire l t0 mid hmid
  have htail : run (⟨l, true, false, t0, 0⟩ : SessionState) (mid ++ [(tn, an)])
      = ((step (⟨l, true, false, t0, 0⟩ : SessionState) tn an).1,
         (step (⟨l, true, false, t0, 0⟩ : SessionState) tn an).2) := by
    rw [run_append, hmidrun]
    simp [run]
  rcases lt_or_ge l 5 with hlt | hge
  · rw [hrun, htail, step_fire_advance l t0 tn an han htn hlt]
    refine ⟨by norm_num [timing_settings, ACCURACY_THRESHOLD], ?_, ?_, ?_, rfl, rfl⟩
    · simp [numCompletions, isCompletion]
    · rw [if_pos hlt]
    · constructor
      · intro hmem
        simp [FeedbackEvent.levelsRestart] at hmem
      · intro h5
        omega
  · have hnlt : ¬ l < 5 := not_lt.mpr hge
    have h5 : l = 5 := le_antisymm hl5 hge
    rw [hrun, htail, step_fire_wrap l t0 tn an han htn hnlt]
    refine ⟨by norm_num [timing_settings, ACCURACY_THRESHOLD], ?_, ?_, ?_, rfl, rfl⟩
    · simp [numCompletions, isCompletion]
    · rw [if_neg hnlt]
    · simp [h5]

/-- Witness for C4: level 1, a hold started at time 0 with one intermediate
frame at time 1 and completion at time 2, all at accuracy 60. -/
theorem hold_completion_fires_once_witness :
    ((1 : ℤ) ≤ 1 ∧ (1 : ℤ) ≤ 5
      ∧ (⟨1, false, false, 0, 0⟩ : SessionState).pose_correct = false
      ∧ (⟨1, false, false, 0, 0⟩ : SessionState).level_complete = false
      ∧ (⟨1, false, false, 0, 0⟩ : SessionState).current_level = 1
      ∧ ACCURACY_THRESHOLD ≤ (60 : ℚ)
      ∧ (∀ f ∈ ([(1, 60)] : List (ℚ × ℚ)),
          ACCURACY_THRESHOLD ≤ f.2 ∧ f.1 - 0 < timing_settings 1)
      ∧ timing_settings 1 ≤ (2 : ℚ) - 0)
    ∧ ((timing_settings 1 = 2 ∧ timing_settings 2 = 3 ∧ timing_settings 3 = 5 / 2
        ∧ timing_settings 4 = 2 ∧ timing_settings 5 = 3)
      ∧ numCompletions
          (run (⟨1, false, false, 0, 0⟩ : SessionState) ((0, 60) :: ([(1, 60)] ++ [(2, 60)]))).2 = 1
      ∧ (run (⟨1, false, false, 0, 0⟩ : SessionState) ((0, 60) :: ([(1, 60)] ++ [(2, 60)]))).1.current_level
          = (if (1 : ℤ) < 5 then 1 + 1 else 1)
      ∧ ((FeedbackEvent.levelsRestart
            ∈ (run (⟨1, false, false, 0, 0⟩ : SessionState) ((0, 60) :: ([(1, 60)] ++ [(2, 60)]))).2)
          ↔ (1 : ℤ) = 5)
      ∧ (run (⟨1, false, false, 0, 0⟩ : SessionState) ((0, 60) :: ([(1, 60)] ++ [(2, 60)]))).1.pose_correct
          = false
      ∧ (run (⟨1, false, false, 0, 0⟩ : SessionState) ((0, 60) :: ([(1, 60)] ++ [(2, 60)]))).1.level_complete
          = false) :=
  ⟨⟨by decide, by decide, rfl, rfl, rfl, by decide,
    by norm_num [timing_settings, ACCURACY_THRESHOLD], by norm_num [timing_settings, ACCURACY_THRESHOLD]⟩,
   hold_completion_fires_once 1 (by decide) (by decide) ⟨1, false, false, 0, 0⟩ rfl rfl rfl
     0 60 (by decide) [(1, 60)]
     (by norm_num [timing_settings, ACCURACY_THRESHOLD]) 2 60 (by decide)
     (by norm_num [timing_settings, ACCURACY_THRESHOLD])⟩

/-- A sum of two integer squares vanishes only when both do. -/
lemma sq_add_sq_eq_zero_iff (x y : ℤ) : x ^ 2 + y ^ 2 = 0 ↔ x = 0 ∧ y = 0 := by
  constructor
  · intro h
    have hx : x ^ 2 = 0 := le_antisymm (by nlinarith [sq_nonneg y]) (sq_nonneg x)
    have hy : y ^ 2 = 0 := le_antisymm (by nlinarith [sq_nonneg x]) (sq_nonneg y)
    exact ⟨pow_eq_zero_iff (by norm_num) |>.mp hx, pow_eq_zero_iff (by norm_num) |>.mp hy⟩
  · rintro ⟨rfl, rfl⟩
    ring

/-- Norm of the difference of two integer pixel points in the plane. -/
lemma norm_toC_sub (p q : ℤ × ℤ) :
    ‖toC p - toC q‖ = Real.sqrt (((p.1 - q.1) ^ 2 + (p.2 - q.2) ^ 2 : ℤ) : ℝ) := by
  rw [Complex.norm_eq_abs, Complex.abs_apply, Complex.normSq_apply]
  congr 1
  show ((toC p).re - (toC q).re) * ((toC p).re - (toC q).re)
      + ((toC p).im - (toC q).im) * ((toC p).im - (toC q).im) = _
  simp only [toC]
  push_cast
  ring

/-- Real inner product of two complex numbers, coordinatewise. -/
lemma inner_complex_coords (w z : ℂ) : (inner w z : ℝ) = w.re * z.re + w.im * z.im := by
  rw [Complex.inner]
  simp [Complex.mul_re]

/-- The core bridge: away from the two degenerate configurations,
`angle_calc` computes exactly the interior angle at the vertex `p1` formed by
the rays to `p0` and `p2` (Mathlib's Euclidean angle), converted to degrees
and truncated to an integer. -/
lemma angle_calc_eq_interior (p0 p1 p2 : ℤ × ℤ) (h0 : p1 ≠ p0) (h2 : p1 ≠ p2) :
    angle_calc p0 p1 p2
      = pyIntR (EuclideanGeometry.angle (toC p0) (toC p1) (toC p2) * 180 / Real.pi) := by
  have ha : ((p1.1 - p0.1) ^ 2 + (p1.2 - p0.2) ^ 2 : ℤ) ≠ 0 := by
    intro hz
    rcases (sq_add_sq_eq_zero_iff _ _).mp hz with ⟨hx, hy⟩
    exact h0 (Prod.ext (by omega) (by omega))
  have hb : ((p1.1 - p2.1) ^ 2 + (p1.2 - p2.2) ^ 2 : ℤ) ≠ 0 := by
    intro hz
    rcases (sq_add_sq_eq_zero_iff _ _).mp hz with ⟨hx, hy⟩
    exact h2 (Prod.ext (by omega) (by omega))
  have hapos : (0 : ℝ) < (((p1.1 - p0.1) ^ 2 + (p1.2 - p0.2) ^ 2 : ℤ) : ℝ) := by
    have : (0 : ℤ) < (p1.1 - p0.1) ^ 2 + (p1.2 - p0.2) ^ 2 :=
      lt_of_le_of_ne (by positivity) (Ne.symm ha)
    exact_mod_cast this
  have hbpos : (0 : ℝ) < (((p1.1 - p2.1) ^ 2 + (p1.2 - p2.2) ^ 2 : ℤ) : ℝ) := by
    have : (0 : ℤ) < (p1.1 - p2.1) ^ 2 + (p1.2 - p2.2) ^ 2 :=
      lt_of_le_of_ne (by positivity) (Ne.symm hb)
    exact_mod_cast this
  have hnu : ‖toC p0 - toC p1‖ = Real.sqrt (((p1.1 - p0.1) ^ 2 + (p1.2 - p0.2) ^ 2 : ℤ) : ℝ) := by
    rw [norm_toC_sub]
    congr 2
    ring
  have hnv : ‖toC p2 - toC p1‖ = Real.sqrt (((p1.1 - p2.1) ^ 2 + (p1.2 - p2.2) ^ 2 : ℤ) : ℝ) := by
    rw [norm_toC_sub]
    congr 2
    ring
  have hinner : ((((p1.1 - p0.1) ^ 2 + (p1.2 - p0.2) ^ 2)
        + ((p1.1 - p2.1) ^ 2 + (p1.2 - p2.2) ^ 2)
        - ((p2.1 - p0.1) ^ 2 + (p2.2 - p0.2) ^ 2) : ℤ) : ℝ)
      = 2 * (inner (toC p0 - toC p1) (toC p2 - toC p1) : ℝ) := by
    rw [inner_complex_coords]
    simp only [Complex.sub_re, Complex.sub_im, toC]
    push_cast
    ring
  have hangle : EuclideanGeometry.angle (toC p0) (toC p1) (toC p2)
      = Real.arccos (((((p1.1 - p0.1) ^ 2 + (p1.2 - p0.2) ^ 2)
            + ((p1.1 - p2.1) ^ 2 + (p1.2 - p2.2) ^ 2)
            - ((p2.1 - p0.1) ^ 2 + (p2.2 - p0.2) ^ 2) : ℤ) : ℝ)
          / Real.sqrt ((4 * ((p1.1 - p0.1) ^ 2 + (p1.2 - p0.2) ^ 2)
              * ((p1.1 - p2.1) ^ 2 + (p1.2 - p2.2) ^ 2) : ℤ) : ℝ)) := by
    unfold EuclideanGeometry.angle InnerProductGeometry.angle
    rw [vsub_eq_sub, vsub_eq_sub]
    congr 1
    rw [hinner, hnu, hnv]
    have hcast : ((4 * ((p1.1 - p0.1) ^ 2 + (p1.2 - p0.2) ^ 2)
          * ((p1.1 - p2.1) ^ 2 + (p1.2 - p2.2) ^ 2) : ℤ) : ℝ)
        = (2 * (Real.sqrt (((p1.1 - p0.1) ^ 2 + (p1.2 - p0.2) ^ 2 : ℤ) : ℝ)
            * Real.sqrt (((p1.1 - p2.1) ^ 2 + (p1.2 - p2.2) ^ 2 : ℤ) : ℝ))) ^ 2 := by
      rw [mul_pow, mul_pow, Real.sq_sqrt hapos.le, Real.sq_sqrt hbpos.le]
      push_cast
      ring
    rw [hcast, Real.sqrt_sq (by positivity)]
    rw [mul_comm (2 : ℝ) _, mul_comm (2 : ℝ) _, mul_div_mul_right _ _ (two_ne_zero)]
  rw [hangle]
  simp only [angle_calc]
  rw [if_neg (by tauto)]

/-- C7: for any three integer pixel points, `angle_calc(p0, p1, p2)` returns
the interior angle at the vertex `p1` formed by the rays to `p0` and `p2`
(the Euclidean angle, via the law of cosines) in degrees, truncated to an
integer; and if the computation is degenerate (a zero-length segment, which
makes the Python division raise `ZeroDivisionError`) it returns 0 rather
than raising. -/
theorem angle_calc_interior_angle_spec (p0 p1 p2 : ℤ × ℤ) :
    (p1 = p0 ∨ p1 = p2 → angle_calc p0 p1 p2 = 0)
    ∧ (p1 ≠ p0 → p1 ≠ p2 →
        angle_calc p0 p1 p2
          = pyIntR (EuclideanGeometry.angle (toC p0) (toC p1) (toC p2) * 180 / Real.pi)) := by
  constructor
  · rintro (rfl | rfl) <;> simp [angle_calc]
  · exact angle_calc_eq_interior p0 p1 p2

/-- Witness for C7 at a concrete nondegenerate right-angle configuration. -/
theorem angle_calc_interior_angle_spec_witness :
    ((0, 0) : ℤ × ℤ) ≠ (1, 0) ∧ ((0, 0) : ℤ × ℤ) ≠ (0, 1)
    ∧ angle_calc (1, 0) (0, 0) (0, 1)
        = pyIntR (EuclideanGeometry.angle (toC (1, 0)) (toC (0, 0)) (toC (0, 1))
            * 180 / Real.pi) :=
  ⟨by decide, by decide,
   (angle_calc_interior_angle_spec (1, 0) (0, 0) (0, 1)).2 (by decide) (by decide)⟩

/-- Definition following the claim's words for C6 (spec section 4.2,
"penalize deviation of elbow angle from 170"): the Mountain left-arm
sub-score as the claim states it, with the penalized angle being the
interior angle at the ELBOW joint (vertex landmark 13, rays to the wrist 15
and the shoulder 11), to be compared with the source's
`mountain_left_arm_score`. -/
noncomputable def claimed_left_arm_score_elbow_vertex (w h : ℤ) (lms : List Landmark) : ℝ :=
  let elbow_angle := angle_calc (fp w h lms 15) (fp w h lms 13) (fp w h lms 11)
  max 0 (15 * (1 - |(elbow_angle : ℝ) - 170| / 40))

/-- Concrete landmark list for the C6 counterexample (frame 1x1, integer
coordinates): left shoulder (11) at the origin, left elbow (13) at (1,0),
left wrist (15) at (-1,0) — wrist and elbow collinear through the shoulder
— and distinct right-arm points for the amended-claim witness. -/
def cexLms : List Landmark :=
  [⟨0, 0⟩, ⟨0, 0⟩, ⟨0, 0⟩, ⟨0, 0⟩, ⟨0, 0⟩, ⟨0, 0⟩, ⟨0, 0⟩, ⟨0, 0⟩, ⟨0, 0⟩, ⟨0, 0⟩,
   ⟨0, 0⟩, ⟨0, 0⟩, ⟨5, 0⟩, ⟨1, 0⟩, ⟨3, 0⟩, ⟨-1, 0⟩, ⟨5, 1⟩]

lemma cex_fp11 : fp 1 1 cexLms 11 = (0, 0) := by
  show (find_point 1 1 cexLms 11).getD (0, 0) = (0, 0)
  rw [find_point_of_nonneg 1 1 cexLms 11 (by norm_num) (by norm_num [cexLms]),
    show cexLms.get? (11 : ℤ).toNat = some ⟨0, 0⟩ from by decide]
  show (pyInt ((0 : ℚ) * 1), pyInt ((0 : ℚ) * 1)) = ((0 : ℤ), (0 : ℤ))
  norm_num [pyInt]

lemma cex_fp12 : fp 1 1 cexLms 12 = (5, 0) := by
  show (find_point 1 1 cexLms 12).getD (0, 0) = (5, 0)
  rw [find_point_of_nonneg 1 1 cexLms 12 (by norm_num) (by norm_num [cexLms]),
    show cexLms.get? (12 : ℤ).toNat = some ⟨5, 0⟩ from by decide]
  show (pyInt ((5 : ℚ) * 1), pyInt ((0 : ℚ) * 1)) = ((5 : ℤ), (0 : ℤ))
  norm_num [pyInt]

lemma cex_fp13 : fp 1 1 cexLms 13 = (1, 0) := by
  show (find_point 1 1 cexLms 13).getD (0, 0) = (1, 0)
  rw [find_point_of_nonneg 1 1 cexLms 13 (by norm_num) (by norm_num [cexLms]),
    show cexLms.get? (13 : ℤ).toNat = some ⟨1, 0⟩ from by decide]
  show (pyInt ((1 : ℚ) * 1), pyInt ((0 : ℚ) * 1)) = ((1 : ℤ), (0 : ℤ))
  norm_num [pyInt]

lemma cex_fp14 : fp 1 1 cexLms 14 = (3, 0) := by
  show (find_point 1 1 cexLms 14).getD (0, 0) = (3, 0)
  rw [find_point_of_nonneg 1 1 cexLms 14 (by norm_num) (by norm_num [cexLms]),
    show cexLms.get? (14 : ℤ).toNat = some ⟨3, 0⟩ from by decide]
  show (pyInt ((3 : ℚ) * 1), pyInt ((0 : ℚ) * 1)) = ((3 : ℤ), (0 : ℤ))
  norm_num [pyInt]

lemma cex_fp15 : fp 1 1 cexLms 15 = (-1, 0) := by
  show (find_point 1 1 cexLms 15).getD (0, 0) = (-1, 0)
  rw [find_point_of_nonneg 1 1 cexLms 15 (by norm_num) (by norm_num [cexLms]),
    show cexLms.get? (15 : ℤ).toNat = some ⟨-1, 0⟩ from by decide]
  show (pyInt ((-1 : ℚ) * 1), pyInt ((0 : ℚ) * 1)) = ((-1 : ℤ), (0 : ℤ))
  norm_num [pyInt, Int.ceil_neg]

lemma cex_fp16 : fp 1 1 cexLms 16 = (5, 1) := by
  show (find_point 1 1 cexLms 16).getD (0, 0) = (5, 1)
  rw [find_point_of_nonneg 1 1 cexLms 16 (by norm_num) (by norm_num [cexLms]),
    show cexLms.get? (16 : ℤ).toNat = some ⟨5, 1⟩ from by decide]
  show (pyInt ((5 : ℚ) * 1), pyInt ((1 : ℚ) * 1)) = ((5 : ℤ), (1 : ℤ))
  norm_num [pyInt]

lemma sqrt_four_eq : Real.sqrt 4 = 2 := by
  rw [show (4 : ℝ) = 2 ^ 2 by norm_num, Real.sqrt_sq (by norm_num : (0 : ℝ) ≤ 2)]

lemma sqrt_sixteen_eq : Real.sqrt 16 = 4 := by
  rw [show (16 : ℝ) = 4 ^ 2 by norm_num, Real.sqrt_sq (by norm_num : (0 : ℝ) ≤ 4)]

/-- At the counterexample configuration, the code's angle (vertex at the
shoulder, rays to the collinear wrist and elbow) is 180 degrees. -/
lemma angle_calc_cex_shoulder_vertex : angle_calc (-1, 0) (0, 0) (1, 0) = 180 := by
  simp only [angle_calc]
  norm_num
  rw [show (-2 : ℝ) / Real.sqrt 4 = -1 by
    rw [sqrt_four_eq]
    norm_num]
  rw [Real.arccos_neg_one]
  rw [show Real.pi * 180 / Real.pi = 180 by
    rw [mul_comm, mul_div_assoc, div_self Real.pi_ne_zero, mul_one]]
  rw [pyIntR, if_pos (by norm_num : (0 : ℝ) ≤ 180)]
  norm_num

/-- At the counterexample configuration, the claim's angle (vertex at the
elbow, which lies on the segment's extension) is 0 degrees. -/
lemma angle_calc_cex_elbow_vertex : angle_calc (-1, 0) (1, 0) (0, 0) = 0 := by
  simp only [angle_calc]
  norm_num
  rw [show (4 : ℝ) / Real.sqrt 16 = 1 by
    rw [sqrt_sixteen_eq]
    norm_num]
  rw [Real.arccos_one, zero_mul, zero_div]
  rw [pyIntR, if_pos (by norm_num : (0 : ℝ) ≤ 0)]
  norm_num

/-- C6 counterexample: at a concrete Mountain-pose landmark configuration
(wrist, shoulder and elbow collinear with the shoulder between the other
two), the source's left-arm sub-score is 45/4 = 11.25 while the sub-score
prescribed by the claim (penalizing the interior angle at the elbow joint)
is 0: the angle penalized by the code is NOT the interior angle at the
elbow joint. -/
theorem mountain_arm_vertex_counterexample :
    mountain_left_arm_score 1 1 cexLms = 45 / 4
    ∧ claimed_left_arm_score_elbow_vertex 1 1 cexLms = 0
    ∧ mountain_left_arm_score 1 1 cexLms ≠ claimed_left_arm_score_elbow_vertex 1 1 cexLms := by
  have hcode : mountain_left_arm_score 1 1 cexLms = 45 / 4 := by
    simp only [mountain_left_arm_score]
    rw [cex_fp15, cex_fp11, cex_fp13, angle_calc_cex_shoulder_vertex]
    rw [show |((180 : ℤ) : ℝ) - 170| = 10 by
      rw [show ((180 : ℤ) : ℝ) - 170 = 10 by norm_num]
      exact abs_of_nonneg (by norm_num)]
    rw [show (15 : ℝ) * (1 - 10 / 40) = 45 / 4 by norm_num]
    exact max_eq_right (by norm_num)
  have hclaim : claimed_left_arm_score_elbow_vertex 1 1 cexLms = 0 := by
    simp only [claimed_left_arm_score_elbow_vertex]
    rw [cex_fp15, cex_fp13, cex_fp11, angle_calc_cex_elbow_vertex]
    rw [show |((0 : ℤ) : ℝ) - 170| = 170 by
      rw [show ((0 : ℤ) : ℝ) - 170 = -(170 : ℝ) by norm_num, abs_neg]
      exact abs_of_nonneg (by norm_num)]
    exact max_eq_left (by norm_num)
  refine ⟨hcode, hclaim, ?_⟩
  rw [hcode, hclaim]
  norm_num

/-- C6 amended: for Mountain Pose with landmarks present, each of the two
arm-straightness sub-scores equals the arm weight (15) scaled by one minus
the deviation of the measured angle from 170 degrees divided by the
tolerance 40, clamped below at 0 — but the angle penalized is the interior
angle at the SHOULDER, formed by the rays to the wrist and to the elbow
(not the interior angle at the elbow joint). -/
theorem mountain_arm_scores_shoulder_vertex (w h : ℤ) (lms : List Landmark)
    (hL0 : fp w h lms 11 ≠ fp w h lms 15) (hL2 : fp w h lms 11 ≠ fp w h lms 13)
    (hR0 : fp w h lms 12 ≠ fp w h lms 16) (hR2 : fp w h lms 12 ≠ fp w h lms 14) :
    mountain_left_arm_score w h lms
      = max 0 (15 * (1 - |((pyIntR (EuclideanGeometry.angle (toC (fp w h lms 15))
            (toC (fp w h lms 11)) (toC (fp w h lms 13)) * 180 / Real.pi) : ℤ) : ℝ)
          - 170| / 40))
    ∧ mountain_right_arm_score w h lms
      = max 0 (15 * (1 - |((pyIntR (EuclideanGeometry.angle (toC (fp w h lms 16))
            (toC (fp w h lms 12)) (toC (fp w h lms 14)) * 180 / Real.pi) : ℤ) : ℝ)
          - 170| / 40)) := by
  constructor
  · simp only [mountain_left_arm_score]
    rw [angle_calc_eq_interior (fp w h lms 15) (fp w h lms 11) (fp w h lms 13) hL0 hL2]
  · simp only [mountain_right_arm_score]
    rw [angle_calc_eq_interior (fp w h lms 16) (fp w h lms 12) (fp w h lms 14) hR0 hR2]

/-- Witness for the amended C6 statement at the concrete landmark list. -/
theorem mountain_arm_scores_shoulder_vertex_witness :
    fp 1 1 cexLms 11 ≠ fp 1 1 cexLms 15 ∧ fp 1 1 cexLms 11 ≠ fp 1 1 cexLms 13
    ∧ fp 1 1 cexLms 12 ≠ fp 1 1 cexLms 16 ∧ fp 1 1 cexLms 12 ≠ fp 1 1 cexLms 14
    ∧ (mountain_left_arm_score 1 1 cexLms
        = max 0 (15 * (1 - |((pyIntR (EuclideanGeometry.angle (toC (fp 1 1 cexLms 15))
              (toC (fp 1 1 cexLms 11)) (toC (fp 1 1 cexLms 13)) * 180 / Real.pi) : ℤ) : ℝ)
            - 170| / 40))
      ∧ mountain_right_arm_score 1 1 cexLms
        = max 0 (15 * (1 - |((pyIntR (EuclideanGeometry.angle (toC (fp 1 1 cexLms 16))
              (toC (fp 1 1 cexLms 12)) (toC (fp 1 1 cexLms 14)) * 180 / Real.pi) : ℤ) : ℝ)
            - 170| / 40))) :=
  ⟨by rw [cex_fp11, cex_fp15]; decide, by rw [cex_fp11, cex_fp13]; decide,
   by rw [cex_fp12, cex_fp16]; decide, by rw [cex_fp12, cex_fp14]; decide,
   mountain_arm_scores_shoulder_vertex 1 1 cexLms
     (by rw [cex_fp11, cex_fp15]; decide) (by rw [cex_fp11, cex_fp13]; decide)
     (by rw [cex_fp12, cex_fp16]; decide) (by rw [cex_fp12, cex_fp14]; decide)⟩

end Yoga
